import Mathlib

/-!
# Transfer-memory creation (`svc_transfer_memory.cpp`)

A shallow embedding of `Kernel::Svc::CreateTransferMemory` and
`CreateTransferMemory32`, with the kernel collaborators the function calls
(resource limit, slab heap, object list, handle table, page table) modelled as
explicit state, followed by theorems about the behaviour of the function.
-/

namespace Kernel

/-! ## Basic types -/

/-- Modelled from the spec: the result codes of the error taxonomy (section 7);
their declarations are not part of this translation unit. -/
inductive Result
  | ResultSuccess
  | ResultInvalidAddress
  | ResultInvalidSize
  | ResultInvalidCurrentMemory
  | ResultInvalidNewMemoryPermission
  | ResultLimitReached
  | ResultOutOfResource
  | ResultOutOfHandles
  | ResultInternal (code : Nat)
  deriving DecidableEq, Repr

open Result

/-- The test `IsError()` that `R_TRY` applies to a result. -/
def Result.IsError (r : Result) : Bool :=
  match r with
  | ResultSuccess => false
  | _ => true

/-- Modelled from the spec: the fixed page size of the address-space manager
(0x1000 in the end-to-end example); the constant is declared elsewhere. -/
def PageSize : Nat := 0x1000

/-- Width of `VAddr` and `u64`. -/
def AddressWidth : Nat := 64

/-- Modelled from the spec: `Common::IsAligned`, "a multiple of the fixed
memory page size"; the helper is declared in a header outside this unit. -/
def IsAligned (value alignment : Nat) : Bool :=
  value % alignment == 0

namespace Svc

/-- Modelled from the spec: the permission enumeration, declared elsewhere.
`None`, `Read` and `ReadWrite` are the enumerators the source names; the spec
mentions execute and reserved bit patterns as the other values. -/
inductive MemoryPermission
  | None
  | Read
  | ReadWrite
  | Execute
  | Reserved (bits : Nat)
  deriving DecidableEq, Repr

/-- The anonymous-namespace function `IsValidTransferMemoryPermission`. -/
def IsValidTransferMemoryPermission (perm : MemoryPermission) : Bool :=
  match perm with
  | MemoryPermission.None => true
  | MemoryPermission.Read => true
  | MemoryPermission.ReadWrite => true
  | _ => false

end Svc

open Svc

/-- An opaque handle: here the index of the handle-table entry. -/
abbrev Handle := Nat

/-! ## Kernel state -/

/-- Lifecycle state of a transfer-memory descriptor (spec section 3). -/
inductive DescriptorState
  | Uninitialized
  | Initialized
  | Destroyed
  deriving DecidableEq, Repr

/-- Modelled from the spec: the transfer-memory descriptor (section 3), with
the reference count that `Close` decrements. -/
structure KTransferMemory where
  ref_count : Nat
  state : DescriptorState
  address : Nat
  size : Nat
  owner_perm : MemoryPermission
  owner : Option Nat
  deriving DecidableEq, Repr

/-- Modelled from the spec: the quota counter `TransferMemoryCountMax` of a
process: how many are charged and how many are allowed. -/
structure KResourceLimit where
  current : Nat
  limit : Nat
  deriving DecidableEq, Repr

/-- Modelled from the spec: the page table is an external collaborator that
answers whether a range lies within the memory of the process; its answer is
a parameter of the state. -/
structure KPageTable where
  Contains : Nat → Nat → Bool

/-- Modelled from the spec: the handle table, a bounded array of entries; the
handle is the index of the entry, an entry holds the slab index of the object
it owns. -/
structure KHandleTable where
  entries : List (Option Nat)
  deriving DecidableEq, Repr

/-- The current process with the collaborators the function reaches through
it. -/
structure KProcess where
  process_id : Nat
  handle_table : KHandleTable
  page_table : KPageTable
  resource_limit : KResourceLimit

/-- The state reachable from `Core::System`: the current process, the slab
heap of transfer-memory objects, the global object list, and the result that
the next `KTransferMemory::Initialize` reports (the spec allows an internal
failure there without naming its cause, so it is an input). -/
structure System where
  process : KProcess
  slab_heap : List (Option KTransferMemory)
  object_list : List Nat
  initialize_result : Result

/-! ## Collaborators -/

/-- Index of the first free entry of a slot array, if there is one. -/
def firstFree {α : Type} : List (Option α) → Option Nat
  | [] => none
  | none :: _ => some 0
  | some _ :: rest => (firstFree rest).map (· + 1)

/-- Modelled from the spec: `KResourceLimit::Reserve` for one unit of
`TransferMemoryCountMax`: fails when the counter is already at its limit,
otherwise charges one. -/
def KResourceLimit.Reserve (rl : KResourceLimit) : Bool × KResourceLimit :=
  if rl.current < rl.limit then (true, { rl with current := rl.current + 1 })
  else (false, rl)

/-- Modelled from the spec: `KResourceLimit::Release` for one unit: undoes one
charge. -/
def KResourceLimit.Release (rl : KResourceLimit) : KResourceLimit :=
  { rl with current := rl.current - 1 }

/-- Modelled from the spec: the scoped reservation ticket (sections 3, 4.3):
whether the acquisition succeeded and whether it has been committed. -/
structure KScopedResourceReservation where
  success : Bool
  committed : Bool
  deriving DecidableEq, Repr

/-- Modelled from the spec: constructing the reservation attempts to charge
the quota of the current process by one. -/
def KScopedResourceReservation.Acquire (system : System) :
    KScopedResourceReservation × System :=
  let r := system.process.resource_limit.Reserve
  ({ success := r.1, committed := false },
   { system with process := { system.process with resource_limit := r.2 } })

/-- Accessor `Succeeded()` of the reservation. -/
def KScopedResourceReservation.Succeeded (r : KScopedResourceReservation) : Bool :=
  r.success

/-- Modelled from the spec: `Commit()` makes the charge permanent. -/
def KScopedResourceReservation.Commit (r : KScopedResourceReservation) :
    KScopedResourceReservation :=
  { r with committed := true }

/-- Modelled from the spec: leaving the scope of a reservation that succeeded
and was never committed releases the charge; otherwise nothing happens. -/
def KScopedResourceReservation.Destruct (r : KScopedResourceReservation)
    (system : System) : System :=
  if r.success && !r.committed then
    { system with
      process := { system.process with
        resource_limit := system.process.resource_limit.Release } }
  else system

/-- Modelled from the spec: `KTransferMemory::Create` (section 4.4) takes the
first free slab slot and puts a fresh descriptor there, Uninitialized and
holding the one reference of its creator; `none` stands for `nullptr`. -/
def KTransferMemory.Create (system : System) : Option (Nat × System) :=
  match firstFree system.slab_heap with
  | none => none
  | some i =>
    some (i, { system with
      slab_heap := system.slab_heap.set i
        (some { ref_count := 1, state := DescriptorState.Uninitialized,
                address := 0, size := 0, owner_perm := MemoryPermission.None,
                owner := none }) })

/-- Modelled from the spec: `KTransferMemory::Initialize` (section 4.6): on
success records the three attributes and the owner and moves the descriptor
from Uninitialized to Initialized; on an internal failure it reports the
error and leaves the descriptor as it was. -/
def KTransferMemory.Initialize (system : System) (trmem : Nat)
    (address size : Nat) (owner_perm : MemoryPermission) : Result × System :=
  if system.initialize_result.IsError then (system.initialize_result, system)
  else
    match system.slab_heap[trmem]? with
    | some (some t) =>
      (ResultSuccess, { system with
        slab_heap := system.slab_heap.set trmem
          (some { t with state := DescriptorState.Initialized,
                         address := address, size := size,
                         owner_perm := owner_perm,
                         owner := some system.process.process_id }) })
    | _ => (ResultSuccess, system)

/-- Modelled from the spec: `KTransferMemory::Register` adds a non-owning
back-reference to the global registry; it cannot fail. -/
def KTransferMemory.Register (system : System) (trmem : Nat) : System :=
  { system with object_list := trmem :: system.object_list }

/-- Modelled from the spec: destruction of a descriptor (sections 4.4, 4.7
step 9, 9): an Initialized descriptor is removed from the registry and its
quota charge is released by its own destruction accounting; in every case its
slab slot is freed. -/
def KTransferMemory.Destroy (system : System) (trmem : Nat) (t : KTransferMemory) :
    System :=
  let system :=
    if t.state = DescriptorState.Initialized then
      { system with
        object_list := system.object_list.erase trmem
        process := { system.process with
          resource_limit := system.process.resource_limit.Release } }
    else system
  { system with slab_heap := system.slab_heap.set trmem none }

/-- Modelled from the spec: `Close()` gives up one reference; giving up the
last one destroys the descriptor. -/
def KTransferMemory.Close (system : System) (trmem : Nat) : System :=
  match system.slab_heap[trmem]? with
  | some (some t) =>
    if t.ref_count ≤ 1 then KTransferMemory.Destroy system trmem t
    else { system with
      slab_heap := system.slab_heap.set trmem
        (some { t with ref_count := t.ref_count - 1 }) }
  | _ => system

/-- Modelled from the spec: `KHandleTable::Add` (section 4.7 step 9): when the
table has a free entry, the entry takes a reference of its own to the object
and its index is written to `out`; when the table is exhausted the call fails
and changes nothing. -/
def KHandleTable.Add (system : System) (out : Handle) (obj : Nat) :
    Result × Handle × System :=
  match firstFree system.process.handle_table.entries with
  | none => (ResultOutOfHandles, out, system)
  | some h =>
    (ResultSuccess, h, { system with
      process := { system.process with
        handle_table :=
          { entries := system.process.handle_table.entries.set h (some obj) } }
      slab_heap :=
        match system.slab_heap[obj]? with
        | some (some t) =>
          system.slab_heap.set obj (some { t with ref_count := t.ref_count + 1 })
        | _ => system.slab_heap })

/-! ## The system call -/

namespace Svc

/-- Calls that `CreateTransferMemory` makes on its collaborators, recorded in
program order. -/
inductive Call
  | Reserve
  | Create
  | Contains
  | Initialize
  | Commit
  | Register
  | Add
  | Close
  deriving DecidableEq, Repr

/-- What a call of `CreateTransferMemory` leaves behind: the returned result,
the content of `*out`, the state, and the collaborator calls it made. -/
structure Outcome where
  result : Result
  out : Handle
  system : System
  calls : List Call

/-- The function `CreateTransferMemory`. `address` and `size` are 64-bit, so
the sum in the overflow check is taken modulo 2^64. The scope-exit `Close` and
the destructor of the reservation run, in this order, at every return that
follows their declaration. -/
def CreateTransferMemory (system : System) (out : Handle) (address size : Nat)
    (map_perm : MemoryPermission) : Outcome :=
  -- Validate the size.
  if !IsAligned address PageSize then ⟨ResultInvalidAddress, out, system, []⟩
  else if !IsAligned size PageSize then ⟨ResultInvalidSize, out, system, []⟩
  else if !decide (size > 0) then ⟨ResultInvalidSize, out, system, []⟩
  else if !decide (address < (address + size) % 2 ^ AddressWidth) then
    ⟨ResultInvalidCurrentMemory, out, system, []⟩
  -- Validate the permissions.
  else if !IsValidTransferMemoryPermission map_perm then
    ⟨ResultInvalidNewMemoryPermission, out, system, []⟩
  else
    -- Reserve a new transfer memory from the process resource limit.
    let (trmem_reservation, s1) := KScopedResourceReservation.Acquire system
    if !trmem_reservation.Succeeded then
      ⟨ResultLimitReached, out, trmem_reservation.Destruct s1, [Call.Reserve]⟩
    else
      -- Create the transfer memory.
      match KTransferMemory.Create s1 with
      | none =>
        ⟨ResultOutOfResource, out, trmem_reservation.Destruct s1,
          [Call.Reserve, Call.Create]⟩
      | some (trmem, s2) =>
        -- Ensure that the region is in range.
        if !s2.process.page_table.Contains address size then
          ⟨ResultInvalidCurrentMemory, out,
            trmem_reservation.Destruct (KTransferMemory.Close s2 trmem),
            [Call.Reserve, Call.Create, Call.Contains, Call.Close]⟩
        else
          -- Initialize the transfer memory.
          let (init_result, s3) :=
            KTransferMemory.Initialize s2 trmem address size map_perm
          if init_result.IsError then
            ⟨init_result, out,
              trmem_reservation.Destruct (KTransferMemory.Close s3 trmem),
              [Call.Reserve, Call.Create, Call.Contains, Call.Initialize,
               Call.Close]⟩
          else
            -- Commit the reservation.
            let committed := trmem_reservation.Commit
            -- Register the transfer memory.
            let s4 := KTransferMemory.Register s3 trmem
            -- Add the transfer memory to the handle table.
            let (add_result, out1, s5) := KHandleTable.Add s4 out trmem
            if add_result.IsError then
              ⟨add_result, out1,
                committed.Destruct (KTransferMemory.Close s5 trmem),
                [Call.Reserve, Call.Create, Call.Contains, Call.Initialize,
                 Call.Commit, Call.Register, Call.Add, Call.Close]⟩
            else
              ⟨ResultSuccess, out1,
                committed.Destruct (KTransferMemory.Close s5 trmem),
                [Call.Reserve, Call.Create, Call.Contains, Call.Initialize,
                 Call.Commit, Call.Register, Call.Add, Call.Close]⟩

/-- The function `CreateTransferMemory32`: the `u32` arguments are converted
to the 64-bit parameter types (an unsigned conversion, the value modulo 2^64)
and forwarded. -/
def CreateTransferMemory32 (system : System) (out : Handle) (address size : Nat)
    (map_perm : MemoryPermission) : Outcome :=
  CreateTransferMemory system out (address % 2 ^ AddressWidth)
    (size % 2 ^ AddressWidth) map_perm

end Svc

/-! ## Sample states -/

/-- A process with a two-entry handle table (entry 0 in use), a page table
owning `[0x1000, 0x10000)`, and a quota of two with none charged. -/
def sampleProcess : KProcess :=
  { process_id := 7
    handle_table := { entries := [some 5, none] }
    page_table :=
      { Contains := fun a s => decide (0x1000 ≤ a) && decide (a + s ≤ 0x10000) }
    resource_limit := { current := 0, limit := 2 } }

/-- A system with a three-slot slab heap, all slots free. -/
def sampleSystem : System :=
  { process := sampleProcess
    slab_heap := [none, none, none]
    object_list := []
    initialize_result := ResultSuccess }

/-- A system whose only handle-table entry and only quota unit are taken by
a live descriptor in slab slot 0; slot 1 is free. -/
def fullTableSystem : System :=
  { process :=
      { process_id := 7
        handle_table := { entries := [some 0] }
        page_table :=
          { Contains := fun a s => decide (0x1000 ≤ a) && decide (a + s ≤ 0x10000) }
        resource_limit := { current := 1, limit := 2 } }
    slab_heap :=
      [some { ref_count := 1, state := DescriptorState.Initialized,
              address := 0x2000, size := 0x1000,
              owner_perm := MemoryPermission.ReadWrite, owner := some 7 },
       none]
    object_list := [0]
    initialize_result := ResultSuccess }

/-- The system `fullTableSystem` with its quota lowered to the one unit that
is already charged. -/
def exhaustedSystem : System :=
  { fullTableSystem with
    process := { fullTableSystem.process with
      resource_limit := { current := 1, limit := 1 } } }

/-! ## Conditions and states used in the statements -/

namespace Svc

/-- The four input checks and the permission check all pass. -/
def Validated (address size : Nat) (map_perm : MemoryPermission) : Prop :=
  IsAligned address PageSize = true ∧ IsAligned size PageSize = true ∧ 0 < size ∧
    address < (address + size) % 2 ^ AddressWidth ∧
    IsValidTransferMemoryPermission map_perm = true

instance (address size : Nat) (map_perm : MemoryPermission) :
    Decidable (Validated address size map_perm) := by
  unfold Validated
  infer_instance

/-- The state a successful call leaves: one more charge on the quota, the
descriptor in slab slot `i`, registered, and owned by handle-table entry `h`. -/
def successState (system : System) (i h : Nat) (address size : Nat)
    (map_perm : MemoryPermission) : System :=
  { process :=
      { process_id := system.process.process_id
        handle_table :=
          { entries := system.process.handle_table.entries.set h (some i) }
        page_table := system.process.page_table
        resource_limit :=
          { current := system.process.resource_limit.current + 1
            limit := system.process.resource_limit.limit } }
    slab_heap := system.slab_heap.set i
      (some { ref_count := 1, state := DescriptorState.Initialized,
              address := address, size := size, owner_perm := map_perm,
              owner := some system.process.process_id })
    object_list := i :: system.object_list
    initialize_result := system.initialize_result }

end Svc

/-! ## The control flow as the spec words it -/

namespace Svc

/-- The ten checks of the spec, in its order; each pairs "this check fails"
(read off the state before the call) with the error it then reports. The
wrap-around check is the unbounded sum reaching 2^64. -/
def orderedChecks (system : System) (address size : Nat)
    (map_perm : MemoryPermission) : List (Bool × Result) :=
  [ (address % PageSize != 0, ResultInvalidAddress),
    (size % PageSize != 0, ResultInvalidSize),
    (size == 0, ResultInvalidSize),
    (decide (2 ^ 64 ≤ address + size), ResultInvalidCurrentMemory),
    (!(map_perm == MemoryPermission.None || map_perm == MemoryPermission.Read ||
        map_perm == MemoryPermission.ReadWrite), ResultInvalidNewMemoryPermission),
    (decide (system.process.resource_limit.limit ≤
        system.process.resource_limit.current), ResultLimitReached),
    (system.slab_heap.all Option.isSome, ResultOutOfResource),
    (!system.process.page_table.Contains address size, ResultInvalidCurrentMemory),
    (system.initialize_result != ResultSuccess, system.initialize_result),
    (system.process.handle_table.entries.all Option.isSome, ResultOutOfHandles) ]

/-- The error of the first check that fails, success when none does. -/
def firstFailure : List (Bool × Result) → Result
  | [] => ResultSuccess
  | (failed, error) :: rest => if failed then error else firstFailure rest

end Svc

/-! ## Slot arrays -/

theorem isError_success : Result.IsError ResultSuccess = false := rfl

theorem isError_outOfHandles : Result.IsError ResultOutOfHandles = true := rfl

theorem isError_eq_false (r : Result) : r.IsError = false ↔ r = ResultSuccess := by
  cases r <;> simp [Result.IsError]

theorem firstFree_getElem? {α : Type} :
    ∀ (l : List (Option α)) (i : Nat), firstFree l = some i → l[i]? = some none
  | [], i, h => by simp [firstFree] at h
  | none :: rest, i, h => by
    simp [firstFree] at h
    subst h
    simp
  | some a :: rest, i, h => by
    simp only [firstFree, Option.map_eq_some'] at h
    obtain ⟨j, hj, rfl⟩ := h
    simpa using firstFree_getElem? rest j hj

theorem firstFree_lt_length {α : Type} (l : List (Option α)) (i : Nat)
    (h : firstFree l = some i) : i < l.length := by
  have h1 := firstFree_getElem? l i h
  by_contra hlt
  rw [List.getElem?_eq_none (Nat.le_of_not_lt hlt)] at h1
  exact Option.noConfusion h1

theorem firstFree_eq_none {α : Type} :
    ∀ (l : List (Option α)), firstFree l = none ↔ ∀ x ∈ l, x ≠ none
  | [] => by simp [firstFree]
  | none :: rest => by simp [firstFree]
  | some a :: rest => by
    simp [firstFree, firstFree_eq_none rest]

theorem set_set_free {α : Type} (l : List (Option α)) (i : Nat) (x : Option α)
    (h : l[i]? = some none) : (l.set i x).set i none = l := by
  rw [List.set_set]
  apply List.ext_getElem?
  intro j
  by_cases hj : i = j
  · subst hj
    have hlt : i < l.length := by
      by_contra hlt
      rw [List.getElem?_eq_none (Nat.le_of_not_lt hlt)] at h
      exact Option.noConfusion h
    rw [List.getElem?_set_self hlt, h]
  · rw [List.getElem?_set_ne hj]

theorem getElem?_set_free {α : Type} (l : List (Option α)) (i : Nat) (x : Option α)
    (h : l[i]? = some none) : (l.set i x)[i]? = some x := by
  have hlt : i < l.length := by
    by_contra hlt
    rw [List.getElem?_eq_none (Nat.le_of_not_lt hlt)] at h
    exact Option.noConfusion h
  exact List.getElem?_set_self hlt

/-! ## The paths of `CreateTransferMemory` -/

namespace Svc

theorem path_limit (system : System) (out : Handle) (address size : Nat)
    (map_perm : MemoryPermission) (hv : Validated address size map_perm)
    (hq : ¬ system.process.resource_limit.current < system.process.resource_limit.limit) :
    CreateTransferMemory system out address size map_perm =
      ⟨ResultLimitReached, out, system, [Call.Reserve]⟩ := by
  obtain ⟨ha, hs, hz, ho, hp⟩ := hv
  simp [CreateTransferMemory, ha, hs, hz, ho, hp, KScopedResourceReservation.Acquire,
    KResourceLimit.Reserve, hq, KScopedResourceReservation.Succeeded,
    KScopedResourceReservation.Destruct]

theorem path_alloc (system : System) (out : Handle) (address size : Nat)
    (map_perm : MemoryPermission) (hv : Validated address size map_perm)
    (hq : system.process.resource_limit.current < system.process.resource_limit.limit)
    (hc : firstFree system.slab_heap = none) :
    CreateTransferMemory system out address size map_perm =
      ⟨ResultOutOfResource, out, system, [Call.Reserve, Call.Create]⟩ := by
  obtain ⟨ha, hs, hz, ho, hp⟩ := hv
  simp [CreateTransferMemory, ha, hs, hz, ho, hp, KScopedResourceReservation.Acquire,
    KResourceLimit.Reserve, hq, KScopedResourceReservation.Succeeded,
    KScopedResourceReservation.Destruct, KTransferMemory.Create, hc,
    KResourceLimit.Release]

theorem path_contains (system : System) (out : Handle) (address size : Nat)
    (map_perm : MemoryPermission) (i : Nat) (hv : Validated address size map_perm)
    (hq : system.process.resource_limit.current < system.process.resource_limit.limit)
    (hc : firstFree system.slab_heap = some i)
    (hr : system.process.page_table.Contains address size = false) :
    CreateTransferMemory system out address size map_perm =
      ⟨ResultInvalidCurrentMemory, out, system,
        [Call.Reserve, Call.Create, Call.Contains, Call.Close]⟩ := by
  obtain ⟨ha, hs, hz, ho, hp⟩ := hv
  have hfree := firstFree_getElem? _ _ hc
  simp [CreateTransferMemory, ha, hs, hz, ho, hp, KScopedResourceReservation.Acquire,
    KResourceLimit.Reserve, hq, KScopedResourceReservation.Succeeded,
    KScopedResourceReservation.Destruct, KTransferMemory.Create, hc,
    KResourceLimit.Release, hr, KTransferMemory.Close, KTransferMemory.Destroy,
    getElem?_set_free _ _ _ hfree, set_set_free _ _ _ hfree]

theorem path_init_failure (system : System) (out : Handle) (address size : Nat)
    (map_perm : MemoryPermission) (i : Nat) (hv : Validated address size map_perm)
    (hq : system.process.resource_limit.current < system.process.resource_limit.limit)
    (hc : firstFree system.slab_heap = some i)
    (hr : system.process.page_table.Contains address size = true)
    (hi : system.initialize_result.IsError = true) :
    CreateTransferMemory system out address size map_perm =
      ⟨system.initialize_result, out, system,
        [Call.Reserve, Call.Create, Call.Contains, Call.Initialize, Call.Close]⟩ := by
  obtain ⟨ha, hs, hz, ho, hp⟩ := hv
  have hfree := firstFree_getElem? _ _ hc
  simp [CreateTransferMemory, ha, hs, hz, ho, hp, KScopedResourceReservation.Acquire,
    KResourceLimit.Reserve, hq, KScopedResourceReservation.Succeeded,
    KScopedResourceReservation.Destruct, KTransferMemory.Create, hc,
    KResourceLimit.Release, hr, KTransferMemory.Initialize, hi,
    KTransferMemory.Close, KTransferMemory.Destroy,
    getElem?_set_free _ _ _ hfree, set_set_free _ _ _ hfree]

theorem path_add (system : System) (out : Handle) (address size : Nat)
    (map_perm : MemoryPermission) (i : Nat) (hv : Validated address size map_perm)
    (hq : system.process.resource_limit.current < system.process.resource_limit.limit)
    (hc : firstFree system.slab_heap = some i)
    (hr : system.process.page_table.Contains address size = true)
    (hi : system.initialize_result.IsError = false)
    (hh : firstFree system.process.handle_table.entries = none) :
    CreateTransferMemory system out address size map_perm =
      ⟨ResultOutOfHandles, out, system,
        [Call.Reserve, Call.Create, Call.Contains, Call.Initialize, Call.Commit,
         Call.Register, Call.Add, Call.Close]⟩ := by
  obtain ⟨ha, hs, hz, ho, hp⟩ := hv
  have hfree := firstFree_getElem? _ _ hc
  simp [CreateTransferMemory, ha, hs, hz, ho, hp, KScopedResourceReservation.Acquire,
    KResourceLimit.Reserve, hq, KScopedResourceReservation.Succeeded,
    KScopedResourceReservation.Destruct, KTransferMemory.Create, hc,
    KResourceLimit.Release, hr, KTransferMemory.Initialize, hi,
    KScopedResourceReservation.Commit, KTransferMemory.Register, KHandleTable.Add, hh,
    isError_success, isError_outOfHandles, KTransferMemory.Close, KTransferMemory.Destroy,
    getElem?_set_free _ _ _ hfree, set_set_free _ _ _ hfree, List.set_set]

theorem path_success (system : System) (out : Handle) (address size : Nat)
    (map_perm : MemoryPermission) (i h : Nat) (hv : Validated address size map_perm)
    (hq : system.process.resource_limit.current < system.process.resource_limit.limit)
    (hc : firstFree system.slab_heap = some i)
    (hr : system.process.page_table.Contains address size = true)
    (hi : system.initialize_result.IsError = false)
    (hh : firstFree system.process.handle_table.entries = some h) :
    CreateTransferMemory system out address size map_perm =
      ⟨ResultSuccess, h, successState system i h address size map_perm,
        [Call.Reserve, Call.Create, Call.Contains, Call.Initialize, Call.Commit,
         Call.Register, Call.Add, Call.Close]⟩ := by
  obtain ⟨ha, hs, hz, ho, hp⟩ := hv
  have hfree := firstFree_getElem? _ _ hc
  simp [CreateTransferMemory, ha, hs, hz, ho, hp, KScopedResourceReservation.Acquire,
    KResourceLimit.Reserve, hq, KScopedResourceReservation.Succeeded,
    KScopedResourceReservation.Destruct, KTransferMemory.Create, hc,
    KResourceLimit.Release, hr, KTransferMemory.Initialize, hi,
    KScopedResourceReservation.Commit, KTransferMemory.Register, KHandleTable.Add, hh,
    isError_success, isError_outOfHandles, KTransferMemory.Close, KTransferMemory.Destroy,
    getElem?_set_free _ _ _ hfree, set_set_free _ _ _ hfree, List.set_set, successState]

theorem path_address (system : System) (out : Handle) (address size : Nat)
    (map_perm : MemoryPermission) (ha : IsAligned address PageSize = false) :
    CreateTransferMemory system out address size map_perm =
      ⟨ResultInvalidAddress, out, system, []⟩ := by
  simp [CreateTransferMemory, ha]

theorem path_size_aligned (system : System) (out : Handle) (address size : Nat)
    (map_perm : MemoryPermission) (ha : IsAligned address PageSize = true)
    (hs : IsAligned size PageSize = false) :
    CreateTransferMemory system out address size map_perm =
      ⟨ResultInvalidSize, out, system, []⟩ := by
  simp [CreateTransferMemory, ha, hs]

theorem path_size_zero (system : System) (out : Handle) (address size : Nat)
    (map_perm : MemoryPermission) (ha : IsAligned address PageSize = true)
    (hs : IsAligned size PageSize = true) (hz : ¬ 0 < size) :
    CreateTransferMemory system out address size map_perm =
      ⟨ResultInvalidSize, out, system, []⟩ := by
  simp [CreateTransferMemory, ha, hs, hz]

theorem path_overflow (system : System) (out : Handle) (address size : Nat)
    (map_perm : MemoryPermission) (ha : IsAligned address PageSize = true)
    (hs : IsAligned size PageSize = true) (hz : 0 < size)
    (ho : ¬ address < (address + size) % 2 ^ AddressWidth) :
    CreateTransferMemory system out address size map_perm =
      ⟨ResultInvalidCurrentMemory, out, system, []⟩ := by
  simp [CreateTransferMemory, ha, hs, hz, ho]

theorem path_permission (system : System) (out : Handle) (address size : Nat)
    (map_perm : MemoryPermission) (ha : IsAligned address PageSize = true)
    (hs : IsAligned size PageSize = true) (hz : 0 < size)
    (ho : address < (address + size) % 2 ^ AddressWidth)
    (hp : IsValidTransferMemoryPermission map_perm = false) :
    CreateTransferMemory system out address size map_perm =
      ⟨ResultInvalidNewMemoryPermission, out, system, []⟩ := by
  simp [CreateTransferMemory, ha, hs, hz, ho, hp]

/-- Every call either fails and hands back the state and `*out` it was given,
or runs the success path to its end. -/
theorem create_cases (system : System) (out : Handle) (address size : Nat)
    (map_perm : MemoryPermission) :
    ((CreateTransferMemory system out address size map_perm).result ≠ ResultSuccess ∧
      (CreateTransferMemory system out address size map_perm).system = system ∧
      (CreateTransferMemory system out address size map_perm).out = out) ∨
    ∃ i h, Validated address size map_perm ∧
      system.process.resource_limit.current < system.process.resource_limit.limit ∧
      firstFree system.slab_heap = some i ∧
      system.process.page_table.Contains address size = true ∧
      system.initialize_result = ResultSuccess ∧
      firstFree system.process.handle_table.entries = some h ∧
      CreateTransferMemory system out address size map_perm =
        ⟨ResultSuccess, h, successState system i h address size map_perm,
          [Call.Reserve, Call.Create, Call.Contains, Call.Initialize, Call.Commit,
           Call.Register, Call.Add, Call.Close]⟩ := by
  by_cases ha : IsAligned address PageSize = true
  swap
  · left; rw [path_address _ _ _ _ _ (by simpa using ha)]; simp
  by_cases hs : IsAligned size PageSize = true
  swap
  · left; rw [path_size_aligned _ _ _ _ _ ha (by simpa using hs)]; simp
  by_cases hz : 0 < size
  swap
  · left; rw [path_size_zero _ _ _ _ _ ha hs hz]; simp
  by_cases ho : address < (address + size) % 2 ^ AddressWidth
  swap
  · left; rw [path_overflow _ _ _ _ _ ha hs hz ho]; simp
  by_cases hp : IsValidTransferMemoryPermission map_perm = true
  swap
  · left; rw [path_permission _ _ _ _ _ ha hs hz ho (by simpa using hp)]; simp
  have hv : Validated address size map_perm := ⟨ha, hs, hz, ho, hp⟩
  by_cases hq : system.process.resource_limit.current < system.process.resource_limit.limit
  swap
  · left; rw [path_limit _ _ _ _ _ hv hq]; simp
  cases hc : firstFree system.slab_heap with
  | none => left; rw [path_alloc _ _ _ _ _ hv hq hc]; simp
  | some i =>
    cases hr : system.process.page_table.Contains address size with
    | false => left; rw [path_contains _ _ _ _ _ i hv hq hc hr]; simp
    | true =>
      cases hi : system.initialize_result.IsError with
      | true =>
        left; rw [path_init_failure _ _ _ _ _ i hv hq hc hr hi]
        refine ⟨?_, rfl, rfl⟩
        intro h
        have h1 : system.initialize_result = ResultSuccess := h
        rw [h1] at hi
        exact Bool.noConfusion hi
      | false =>
        cases hh : firstFree system.process.handle_table.entries with
        | none => left; rw [path_add _ _ _ _ _ i hv hq hc hr hi hh]; simp
        | some h =>
          right
          exact ⟨i, h, hv, hq, rfl, rfl, (isError_eq_false _).1 hi, rfl,
            path_success _ _ _ _ _ i h hv hq hc hr hi hh⟩

end Svc

namespace Svc

theorem overflow_check_iff (address size : Nat) (ha : address < 2 ^ 64)
    (hs : size < 2 ^ 64) (hz : 0 < size) :
    address < (address + size) % 2 ^ AddressWidth ↔ address + size < 2 ^ 64 := by
  simp only [AddressWidth]
  omega

theorem isAligned_iff (value : Nat) : IsAligned value PageSize = true ↔ value % PageSize = 0 := by
  simp [IsAligned]

theorem isValid_iff (perm : MemoryPermission) :
    IsValidTransferMemoryPermission perm = true ↔
      perm = MemoryPermission.None ∨ perm = MemoryPermission.Read ∨
        perm = MemoryPermission.ReadWrite := by
  cases perm <;> simp [IsValidTransferMemoryPermission]

theorem firstFree_none_iff_all {α : Type} (l : List (Option α)) :
    firstFree l = none ↔ l.all Option.isSome = true := by
  rw [firstFree_eq_none, List.all_eq_true]
  constructor
  · intro h x hx
    cases x with
    | none => exact absurd rfl (h _ hx)
    | some a => rfl
  · intro h x hx hnone
    have := h x hx
    rw [hnone] at this
    exact Bool.noConfusion this

theorem acquire_succeeded (system : System) :
    (KScopedResourceReservation.Acquire system).1.Succeeded = true ↔
      system.process.resource_limit.current < system.process.resource_limit.limit := by
  by_cases h : system.process.resource_limit.current < system.process.resource_limit.limit <;>
    simp [KScopedResourceReservation.Acquire, KScopedResourceReservation.Succeeded,
      KResourceLimit.Reserve, h]

theorem create_isSome (system : System) :
    (KTransferMemory.Create (KScopedResourceReservation.Acquire system).2).isSome = true ↔
      ∃ i, firstFree system.slab_heap = some i := by
  cases h : firstFree system.slab_heap <;>
    simp [KTransferMemory.Create, KScopedResourceReservation.Acquire, h]

/-- A call that passes the five validation checks goes on to the quota
reservation. -/
theorem validated_reserves (system : System) (out : Handle) (address size : Nat)
    (map_perm : MemoryPermission) (hv : Validated address size map_perm) :
    Call.Reserve ∈ (CreateTransferMemory system out address size map_perm).calls := by
  by_cases hq : system.process.resource_limit.current < system.process.resource_limit.limit
  swap
  · rw [path_limit _ _ _ _ _ hv hq]; simp
  cases hc : firstFree system.slab_heap with
  | none => rw [path_alloc _ _ _ _ _ hv hq hc]; simp
  | some i =>
    cases hr : system.process.page_table.Contains address size with
    | false => rw [path_contains _ _ _ _ _ i hv hq hc hr]; simp
    | true =>
      cases hi : system.initialize_result.IsError with
      | true => rw [path_init_failure _ _ _ _ _ i hv hq hc hr hi]; simp
      | false =>
        cases hh : firstFree system.process.handle_table.entries with
        | none => rw [path_add _ _ _ _ _ i hv hq hc hr hi hh]; simp
        | some h => rw [path_success _ _ _ _ _ i h hv hq hc hr hi hh]; simp

end Svc

/-! ## Claims -/

namespace Svc

/-- C1: whenever `CreateTransferMemory` returns success, the handle written to
`out` resolves in the handle table of the caller to a descriptor whose
address, size and permission are the arguments of the call and whose state is
Initialized, and the quota counter is exactly one above its value before the
call. -/
theorem create_success_descriptor (system : System) (out : Handle)
    (address size : Nat) (map_perm : MemoryPermission)
    (hok : (CreateTransferMemory system out address size map_perm).result =
      ResultSuccess) :
    ∃ i t,
      (CreateTransferMemory system out address size map_perm).system.process.handle_table.entries[
          (CreateTransferMemory system out address size map_perm).out]? = some (some i) ∧
      (CreateTransferMemory system out address size map_perm).system.slab_heap[i]? =
        some (some t) ∧
      t.address = address ∧ t.size = size ∧ t.owner_perm = map_perm ∧
      t.state = DescriptorState.Initialized ∧
      (CreateTransferMemory system out address size map_perm).system.process.resource_limit.current =
        system.process.resource_limit.current + 1 := by
  rcases create_cases system out address size map_perm with hfail | hsucc
  · exact absurd hok hfail.1
  · obtain ⟨i, h, _, _, hc, _, _, hh, heq⟩ := hsucc
    rw [heq]
    refine ⟨i, { ref_count := 1, state := DescriptorState.Initialized,
                 address := address, size := size, owner_perm := map_perm,
                 owner := some system.process.process_id },
      ?_, ?_, rfl, rfl, rfl, rfl, rfl⟩
    · exact getElem?_set_free _ _ _ (firstFree_getElem? _ _ hh)
    · exact getElem?_set_free _ _ _ (firstFree_getElem? _ _ hc)

/-- C1 at the end-to-end example of the spec: address 0x1000, size 0x1000,
permission Read, quota available. -/
theorem create_success_descriptor_witness :
    (CreateTransferMemory sampleSystem 99 0x1000 0x1000 MemoryPermission.Read).result =
      ResultSuccess ∧
    ∃ i t,
      (CreateTransferMemory sampleSystem 99 0x1000 0x1000
          MemoryPermission.Read).system.process.handle_table.entries[
          (CreateTransferMemory sampleSystem 99 0x1000 0x1000
            MemoryPermission.Read).out]? = some (some i) ∧
      (CreateTransferMemory sampleSystem 99 0x1000 0x1000
          MemoryPermission.Read).system.slab_heap[i]? = some (some t) ∧
      t.address = 0x1000 ∧ t.size = 0x1000 ∧ t.owner_perm = MemoryPermission.Read ∧
      t.state = DescriptorState.Initialized ∧
      (CreateTransferMemory sampleSystem 99 0x1000 0x1000
          MemoryPermission.Read).system.process.resource_limit.current =
        sampleSystem.process.resource_limit.current + 1 :=
  ⟨by decide,
   create_success_descriptor sampleSystem 99 0x1000 0x1000 MemoryPermission.Read
     (by decide)⟩

/-- C2: whenever `CreateTransferMemory` returns an error, the whole state
afterwards (quota counter, global registry, handle table, slab heap of live
descriptors) is the state before the call, and `*out` is untouched; this
covers every failure path, the failing handle-table add included. -/
theorem create_error_restores_state (system : System) (out : Handle)
    (address size : Nat) (map_perm : MemoryPermission)
    (herr : (CreateTransferMemory system out address size map_perm).result ≠
      ResultSuccess) :
    (CreateTransferMemory system out address size map_perm).system = system ∧
    (CreateTransferMemory system out address size map_perm).system.process.resource_limit =
      system.process.resource_limit ∧
    (CreateTransferMemory system out address size map_perm).system.object_list =
      system.object_list ∧
    (CreateTransferMemory system out address size map_perm).system.process.handle_table =
      system.process.handle_table ∧
    (CreateTransferMemory system out address size map_perm).system.slab_heap =
      system.slab_heap ∧
    (CreateTransferMemory system out address size map_perm).out = out := by
  rcases create_cases system out address size map_perm with hfail | hsucc
  · obtain ⟨_, hsys, hout⟩ := hfail
    rw [hsys]
    exact ⟨rfl, rfl, rfl, rfl, rfl, hout⟩
  · obtain ⟨i, h, _, _, _, _, _, _, heq⟩ := hsucc
    rw [heq] at herr
    exact absurd rfl herr

/-- C2 on the path where the handle-table add fails after the reservation
was committed and the descriptor registered. -/
theorem create_error_restores_state_witness :
    (CreateTransferMemory fullTableSystem 99 0x1000 0x1000 MemoryPermission.Read).result ≠
      ResultSuccess ∧
    ((CreateTransferMemory fullTableSystem 99 0x1000 0x1000
        MemoryPermission.Read).system = fullTableSystem ∧
    (CreateTransferMemory fullTableSystem 99 0x1000 0x1000
        MemoryPermission.Read).system.process.resource_limit =
      fullTableSystem.process.resource_limit ∧
    (CreateTransferMemory fullTableSystem 99 0x1000 0x1000
        MemoryPermission.Read).system.object_list = fullTableSystem.object_list ∧
    (CreateTransferMemory fullTableSystem 99 0x1000 0x1000
        MemoryPermission.Read).system.process.handle_table =
      fullTableSystem.process.handle_table ∧
    (CreateTransferMemory fullTableSystem 99 0x1000 0x1000
        MemoryPermission.Read).system.slab_heap = fullTableSystem.slab_heap ∧
    (CreateTransferMemory fullTableSystem 99 0x1000 0x1000
        MemoryPermission.Read).out = 99) :=
  ⟨by decide,
   create_error_restores_state fullTableSystem 99 0x1000 0x1000 MemoryPermission.Read
     (by decide)⟩

/-- C3: when validation passes, the reservation succeeds and the descriptor is
allocated, but the page table does not contain the range, the call fails with
InvalidCurrentMemory, the quota counter is back at its value before the call,
the whole state is the one before the call (the descriptor is gone again),
and the calls made are reserve, create, the containment query and the closing
of the sole reference: no register, no handle-table add. -/
theorem create_outside_page_table (system : System) (out : Handle)
    (address size : Nat) (map_perm : MemoryPermission)
    (hv : Validated address size map_perm)
    (hres : (KScopedResourceReservation.Acquire system).1.Succeeded = true)
    (halloc : (KTransferMemory.Create
      (KScopedResourceReservation.Acquire system).2).isSome = true)
    (hpt : system.process.page_table.Contains address size = false) :
    (CreateTransferMemory system out address size map_perm).result =
      ResultInvalidCurrentMemory ∧
    (CreateTransferMemory system out address size map_perm).system.process.resource_limit.current =
      system.process.resource_limit.current ∧
    (CreateTransferMemory system out address size map_perm).system = system ∧
    (CreateTransferMemory system out address size map_perm).out = out ∧
    (CreateTransferMemory system out address size map_perm).calls =
      [Call.Reserve, Call.Create, Call.Contains, Call.Close] ∧
    Call.Register ∉ (CreateTransferMemory system out address size map_perm).calls ∧
    Call.Add ∉ (CreateTransferMemory system out address size map_perm).calls := by
  obtain ⟨i, hc⟩ := (create_isSome system).1 halloc
  rw [path_contains _ _ _ _ _ i hv ((acquire_succeeded system).1 hres) hc hpt]
  simp

/-- C3 on a range above the memory the sample process owns. -/
theorem create_outside_page_table_witness :
    Validated 0x20000 0x1000 MemoryPermission.Read ∧
    (KScopedResourceReservation.Acquire sampleSystem).1.Succeeded = true ∧
    (KTransferMemory.Create (KScopedResourceReservation.Acquire sampleSystem).2).isSome =
      true ∧
    sampleSystem.process.page_table.Contains 0x20000 0x1000 = false ∧
    ((CreateTransferMemory sampleSystem 99 0x20000 0x1000 MemoryPermission.Read).result =
      ResultInvalidCurrentMemory ∧
    (CreateTransferMemory sampleSystem 99 0x20000 0x1000
        MemoryPermission.Read).system.process.resource_limit.current =
      sampleSystem.process.resource_limit.current ∧
    (CreateTransferMemory sampleSystem 99 0x20000 0x1000 MemoryPermission.Read).system =
      sampleSystem ∧
    (CreateTransferMemory sampleSystem 99 0x20000 0x1000 MemoryPermission.Read).out = 99 ∧
    (CreateTransferMemory sampleSystem 99 0x20000 0x1000 MemoryPermission.Read).calls =
      [Call.Reserve, Call.Create, Call.Contains, Call.Close] ∧
    Call.Register ∉
      (CreateTransferMemory sampleSystem 99 0x20000 0x1000 MemoryPermission.Read).calls ∧
    Call.Add ∉
      (CreateTransferMemory sampleSystem 99 0x20000 0x1000 MemoryPermission.Read).calls) :=
  ⟨by decide, by decide, by decide, by decide,
   create_outside_page_table sampleSystem 99 0x20000 0x1000 MemoryPermission.Read
     (by decide) (by decide) (by decide) (by decide)⟩

/-- C4: when validation passes and the quota counter is at its limit, the
reservation does not succeed, the call fails with LimitReached, the only call
made is the reservation attempt (no descriptor is constructed), and the state
(quota counter, registry, handle table, slab heap) and `*out` are unchanged. -/
theorem create_limit_reached (system : System) (out : Handle)
    (address size : Nat) (map_perm : MemoryPermission)
    (hv : Validated address size map_perm)
    (hq : system.process.resource_limit.limit ≤ system.process.resource_limit.current) :
    (KScopedResourceReservation.Acquire system).1.Succeeded = false ∧
    CreateTransferMemory system out address size map_perm =
      ⟨ResultLimitReached, out, system, [Call.Reserve]⟩ ∧
    Call.Create ∉ (CreateTransferMemory system out address size map_perm).calls := by
  have hq1 : ¬ system.process.resource_limit.current <
      system.process.resource_limit.limit := Nat.not_lt.2 hq
  refine ⟨?_, path_limit _ _ _ _ _ hv hq1, ?_⟩
  · cases h : (KScopedResourceReservation.Acquire system).1.Succeeded with
    | false => rfl
    | true => exact absurd ((acquire_succeeded system).1 h) hq1
  · rw [path_limit _ _ _ _ _ hv hq1]
    simp

/-- C4 on a process whose quota of one is already charged. -/
theorem create_limit_reached_witness :
    Validated 0x1000 0x1000 MemoryPermission.Read ∧
    exhaustedSystem.process.resource_limit.limit ≤
      exhaustedSystem.process.resource_limit.current ∧
    ((KScopedResourceReservation.Acquire exhaustedSystem).1.Succeeded = false ∧
    CreateTransferMemory exhaustedSystem 99 0x1000 0x1000 MemoryPermission.Read =
      ⟨ResultLimitReached, 99, exhaustedSystem, [Call.Reserve]⟩ ∧
    Call.Create ∉
      (CreateTransferMemory exhaustedSystem 99 0x1000 0x1000 MemoryPermission.Read).calls) :=
  ⟨by decide, by decide,
   create_limit_reached exhaustedSystem 99 0x1000 0x1000 MemoryPermission.Read
     (by decide) (by decide)⟩

/-- C5: for an address that is not a multiple of the page size, whatever the
size, permission and state, the call fails with InvalidAddress, makes no call
on any collaborator, and leaves the state (quota counter included) and `*out`
unchanged. -/
theorem create_misaligned_address (system : System) (out : Handle)
    (address size : Nat) (map_perm : MemoryPermission)
    (ha : address % 0x1000 ≠ 0) :
    CreateTransferMemory system out address size map_perm =
      ⟨ResultInvalidAddress, out, system, []⟩ ∧
    (CreateTransferMemory system out address size map_perm).system.process.resource_limit.current =
      system.process.resource_limit.current := by
  have h : IsAligned address PageSize = false := by
    simpa [IsAligned, PageSize] using ha
  rw [path_address _ _ _ _ _ h]
  exact ⟨rfl, rfl⟩

/-- C5 at the misaligned address 0x1001 of the spec's example. -/
theorem create_misaligned_address_witness :
    0x1001 % 0x1000 ≠ 0 ∧
    (CreateTransferMemory sampleSystem 99 0x1001 0x1000 MemoryPermission.Read =
      ⟨ResultInvalidAddress, 99, sampleSystem, []⟩ ∧
    (CreateTransferMemory sampleSystem 99 0x1001 0x1000
        MemoryPermission.Read).system.process.resource_limit.current =
      sampleSystem.process.resource_limit.current) :=
  ⟨by decide,
   create_misaligned_address sampleSystem 99 0x1001 0x1000 MemoryPermission.Read
     (by decide)⟩

/-- C6 as stated fails: with size zero and the misaligned address 0x1001 the
call reports InvalidAddress, not InvalidSize. -/
theorem create_bad_size_any_address_counterexample :
    ((0 : Nat) = 0 ∨ 0 % PageSize ≠ 0) ∧
    (CreateTransferMemory sampleSystem 99 0x1001 0 MemoryPermission.Read).result =
      ResultInvalidAddress ∧
    (CreateTransferMemory sampleSystem 99 0x1001 0 MemoryPermission.Read).result ≠
      ResultInvalidSize :=
  ⟨Or.inl rfl, by decide, by decide⟩

/-- C6 amended: for a page-aligned address and a size that is zero or not a
multiple of the page size, whatever the permission and state, the call fails
with InvalidSize, and the state (quota counter included) and `*out` are
unchanged. -/
theorem create_bad_size (system : System) (out : Handle)
    (address size : Nat) (map_perm : MemoryPermission)
    (ha : address % 0x1000 = 0) (hs : size = 0 ∨ size % 0x1000 ≠ 0) :
    CreateTransferMemory system out address size map_perm =
      ⟨ResultInvalidSize, out, system, []⟩ ∧
    (CreateTransferMemory system out address size map_perm).system.process.resource_limit.current =
      system.process.resource_limit.current := by
  have ha1 : IsAligned address PageSize = true := by
    simpa [IsAligned, PageSize] using ha
  have key : CreateTransferMemory system out address size map_perm =
      ⟨ResultInvalidSize, out, system, []⟩ := by
    by_cases hal : IsAligned size PageSize = true
    · rcases hs with hz | hm
      · exact path_size_zero _ _ _ _ _ ha1 hal (by omega)
      · exact absurd (by simpa [IsAligned, PageSize] using hal) hm
    · exact path_size_aligned _ _ _ _ _ ha1 (by simpa using hal)
  rw [key]
  exact ⟨rfl, rfl⟩

/-- C6 amended, at the zero size of the spec's example. -/
theorem create_bad_size_witness :
    0x1000 % 0x1000 = 0 ∧ ((0 : Nat) = 0 ∨ 0 % 0x1000 ≠ 0) ∧
    (CreateTransferMemory sampleSystem 99 0x1000 0 MemoryPermission.Read =
      ⟨ResultInvalidSize, 99, sampleSystem, []⟩ ∧
    (CreateTransferMemory sampleSystem 99 0x1000 0
        MemoryPermission.Read).system.process.resource_limit.current =
      sampleSystem.process.resource_limit.current) :=
  ⟨by decide, Or.inl rfl,
   create_bad_size sampleSystem 99 0x1000 0 MemoryPermission.Read (by decide)
     (Or.inl rfl)⟩

/-- C7: for a page-aligned 64-bit address and a page-aligned non-zero 64-bit
size, the check `address < address + size` taken modulo 2^64 fails exactly
when the unbounded sum reaches 2^64; then the call fails with
InvalidCurrentMemory, makes no call on any collaborator and leaves the state
(quota counter included) unchanged; otherwise the call goes on to the
permission check, and past it to the quota reservation. -/
theorem create_overflow_check (system : System) (out : Handle)
    (address size : Nat) (map_perm : MemoryPermission)
    (hab : address < 2 ^ 64) (hsb : size < 2 ^ 64)
    (ha : address % 0x1000 = 0) (hs : size % 0x1000 = 0) (hz : 0 < size) :
    (¬ address < (address + size) % 2 ^ 64 ↔ 2 ^ 64 ≤ address + size) ∧
    (2 ^ 64 ≤ address + size →
      CreateTransferMemory system out address size map_perm =
        ⟨ResultInvalidCurrentMemory, out, system, []⟩) ∧
    (address + size < 2 ^ 64 →
      (IsValidTransferMemoryPermission map_perm = false ∧
        CreateTransferMemory system out address size map_perm =
          ⟨ResultInvalidNewMemoryPermission, out, system, []⟩) ∨
      (IsValidTransferMemoryPermission map_perm = true ∧
        Call.Reserve ∈ (CreateTransferMemory system out address size map_perm).calls)) := by
  have ha1 : IsAligned address PageSize = true := by
    simpa [IsAligned, PageSize] using ha
  have hs1 : IsAligned size PageSize = true := by
    simpa [IsAligned, PageSize] using hs
  have hiff := overflow_check_iff address size hab hsb hz
  refine ⟨?_, ?_, ?_⟩
  · have h := hiff
    simp only [AddressWidth] at h
    rw [h]
    omega
  · intro hov
    exact path_overflow _ _ _ _ _ ha1 hs1 hz (fun h => by have := hiff.1 h; omega)
  · intro hno
    have ho := hiff.2 hno
    cases hp : IsValidTransferMemoryPermission map_perm with
    | false => exact Or.inl ⟨rfl, path_permission _ _ _ _ _ ha1 hs1 hz ho hp⟩
    | true => exact Or.inr ⟨rfl, validated_reserves _ _ _ _ _ ⟨ha1, hs1, hz, ho, hp⟩⟩

/-- C7 on the range of one page that ends exactly at 2^64. -/
theorem create_overflow_check_witness :
    (2 ^ 64 - 0x1000 < 2 ^ 64) ∧ (0x1000 < 2 ^ 64) ∧
    ((2 ^ 64 - 0x1000) % 0x1000 = 0) ∧ (0x1000 % 0x1000 = 0) ∧ (0 < 0x1000) ∧
    ((¬ 2 ^ 64 - 0x1000 < (2 ^ 64 - 0x1000 + 0x1000) % 2 ^ 64 ↔
        2 ^ 64 ≤ 2 ^ 64 - 0x1000 + 0x1000) ∧
    (2 ^ 64 ≤ 2 ^ 64 - 0x1000 + 0x1000 →
      CreateTransferMemory sampleSystem 99 (2 ^ 64 - 0x1000) 0x1000 MemoryPermission.Read =
        ⟨ResultInvalidCurrentMemory, 99, sampleSystem, []⟩) ∧
    (2 ^ 64 - 0x1000 + 0x1000 < 2 ^ 64 →
      (IsValidTransferMemoryPermission MemoryPermission.Read = false ∧
        CreateTransferMemory sampleSystem 99 (2 ^ 64 - 0x1000) 0x1000
            MemoryPermission.Read =
          ⟨ResultInvalidNewMemoryPermission, 99, sampleSystem, []⟩) ∨
      (IsValidTransferMemoryPermission MemoryPermission.Read = true ∧
        Call.Reserve ∈ (CreateTransferMemory sampleSystem 99 (2 ^ 64 - 0x1000) 0x1000
          MemoryPermission.Read).calls))) :=
  ⟨by decide, by decide, by decide, by decide, by decide,
   create_overflow_check sampleSystem 99 (2 ^ 64 - 0x1000) 0x1000 MemoryPermission.Read
     (by decide) (by decide) (by decide) (by decide) (by decide)⟩

/-- C8: `IsValidTransferMemoryPermission` is true exactly for None, Read and
ReadWrite; and when address and size pass the input checks, a permission
outside that set makes the call fail with InvalidNewMemoryPermission with no
reservation attempted and the state (quota counter included) unchanged. -/
theorem create_invalid_permission (system : System) (out : Handle)
    (address size : Nat) (map_perm : MemoryPermission)
    (ha : address % 0x1000 = 0) (hs : size % 0x1000 = 0) (hz : 0 < size)
    (ho : address < (address + size) % 2 ^ 64)
    (hp : map_perm ≠ MemoryPermission.None ∧ map_perm ≠ MemoryPermission.Read ∧
      map_perm ≠ MemoryPermission.ReadWrite) :
    (∀ perm, IsValidTransferMemoryPermission perm = true ↔
      perm = MemoryPermission.None ∨ perm = MemoryPermission.Read ∨
        perm = MemoryPermission.ReadWrite) ∧
    CreateTransferMemory system out address size map_perm =
      ⟨ResultInvalidNewMemoryPermission, out, system, []⟩ ∧
    Call.Reserve ∉ (CreateTransferMemory system out address size map_perm).calls ∧
    (CreateTransferMemory system out address size map_perm).system.process.resource_limit.current =
      system.process.resource_limit.current := by
  have ha1 : IsAligned address PageSize = true := by
    simpa [IsAligned, PageSize] using ha
  have hs1 : IsAligned size PageSize = true := by
    simpa [IsAligned, PageSize] using hs
  have hp1 : IsValidTransferMemoryPermission map_perm = false := by
    cases hv : IsValidTransferMemoryPermission map_perm with
    | false => rfl
    | true =>
      rcases (isValid_iff map_perm).1 hv with h | h | h
      · exact absurd h hp.1
      · exact absurd h hp.2.1
      · exact absurd h hp.2.2
  have key := path_permission system out address size map_perm ha1 hs1 hz ho hp1
  rw [key]
  exact ⟨isValid_iff, rfl, by simp, rfl⟩

/-- C8 with the permission Execute. -/
theorem create_invalid_permission_witness :
    0x1000 % 0x1000 = 0 ∧ 0x1000 % 0x1000 = 0 ∧ 0 < 0x1000 ∧
    0x1000 < (0x1000 + 0x1000) % 2 ^ 64 ∧
    (MemoryPermission.Execute ≠ MemoryPermission.None ∧
      MemoryPermission.Execute ≠ MemoryPermission.Read ∧
      MemoryPermission.Execute ≠ MemoryPermission.ReadWrite) ∧
    ((∀ perm, IsValidTransferMemoryPermission perm = true ↔
      perm = MemoryPermission.None ∨ perm = MemoryPermission.Read ∨
        perm = MemoryPermission.ReadWrite) ∧
    CreateTransferMemory sampleSystem 99 0x1000 0x1000 MemoryPermission.Execute =
      ⟨ResultInvalidNewMemoryPermission, 99, sampleSystem, []⟩ ∧
    Call.Reserve ∉
      (CreateTransferMemory sampleSystem 99 0x1000 0x1000 MemoryPermission.Execute).calls ∧
    (CreateTransferMemory sampleSystem 99 0x1000 0x1000
        MemoryPermission.Execute).system.process.resource_limit.current =
      sampleSystem.process.resource_limit.current) :=
  ⟨by decide, by decide, by decide, by decide, by decide,
   create_invalid_permission sampleSystem 99 0x1000 0x1000 MemoryPermission.Execute
     (by decide) (by decide) (by decide) (by decide) (by decide)⟩

/-- C9: for a 32-bit address and a 32-bit size, `CreateTransferMemory32` gives
the outcome (result, final state, `*out`, calls made) of
`CreateTransferMemory` on the same values as 64-bit arguments. -/
theorem create32_forwards (system : System) (out : Handle)
    (address size : Nat) (map_perm : MemoryPermission)
    (ha : address < 2 ^ 32) (hs : size < 2 ^ 32) :
    CreateTransferMemory32 system out address size map_perm =
      CreateTransferMemory system out address size map_perm := by
  have ha1 : address % 2 ^ AddressWidth = address :=
    Nat.mod_eq_of_lt (by simp only [AddressWidth]; omega)
  have hs1 : size % 2 ^ AddressWidth = size :=
    Nat.mod_eq_of_lt (by simp only [AddressWidth]; omega)
  simp only [CreateTransferMemory32, ha1, hs1]

/-- C9 at the arguments of the spec's end-to-end example. -/
theorem create32_forwards_witness :
    0x1000 < 2 ^ 32 ∧ 0x1000 < 2 ^ 32 ∧
    CreateTransferMemory32 sampleSystem 99 0x1000 0x1000 MemoryPermission.Read =
      CreateTransferMemory sampleSystem 99 0x1000 0x1000 MemoryPermission.Read :=
  ⟨by decide, by decide,
   create32_forwards sampleSystem 99 0x1000 0x1000 MemoryPermission.Read
     (by decide) (by decide)⟩

/-- C10: for 64-bit arguments the result of `CreateTransferMemory` is the
error of the first check that fails in the order address alignment, size
alignment, size non-zero, wrap-around of address + size, permission, quota
reservation, descriptor allocation, page-table containment, descriptor
Initialize, handle-table add; and the result is success exactly when none of
the ten checks fails. -/
theorem create_first_failing_check (system : System) (out : Handle)
    (address size : Nat) (map_perm : MemoryPermission)
    (hab : address < 2 ^ 64) (hsb : size < 2 ^ 64) :
    (CreateTransferMemory system out address size map_perm).result =
      firstFailure (orderedChecks system address size map_perm) ∧
    ((CreateTransferMemory system out address size map_perm).result = ResultSuccess ↔
      ∀ c ∈ orderedChecks system address size map_perm, c.1 = false) := by
  by_cases ha : IsAligned address PageSize = true
  swap
  · rw [path_address _ _ _ _ _ (by simpa using ha)]
    have h1 : ¬ address % PageSize = 0 := fun h => ha ((isAligned_iff _).2 h)
    simp [orderedChecks, firstFailure, h1]
  have h1 : address % PageSize = 0 := (isAligned_iff _).1 ha
  by_cases hs : IsAligned size PageSize = true
  swap
  · rw [path_size_aligned _ _ _ _ _ ha (by simpa using hs)]
    have h2 : ¬ size % PageSize = 0 := fun h => hs ((isAligned_iff _).2 h)
    simp [orderedChecks, firstFailure, h1, h2]
  have h2 : size % PageSize = 0 := (isAligned_iff _).1 hs
  by_cases hz : 0 < size
  swap
  · rw [path_size_zero _ _ _ _ _ ha hs hz]
    have h3 : size = 0 := by omega
    simp [orderedChecks, firstFailure, h1, h3]
  have h3 : ¬ size = 0 := by omega
  have hiff := overflow_check_iff address size hab hsb hz
  by_cases ho : address < (address + size) % 2 ^ AddressWidth
  swap
  · rw [path_overflow _ _ _ _ _ ha hs hz ho]
    have h4 : 18446744073709551616 ≤ address + size := by
      by_contra hc
      exact ho (hiff.2 (by omega))
    simp [orderedChecks, firstFailure, h1, h2, h3, h4]
  have h4 : ¬ 18446744073709551616 ≤ address + size := by
    have := hiff.1 ho
    omega
  by_cases hp : IsValidTransferMemoryPermission map_perm = true
  swap
  · rw [path_permission _ _ _ _ _ ha hs hz ho (by simpa using hp)]
    have h5 : ¬ (map_perm = MemoryPermission.None ∨ map_perm = MemoryPermission.Read ∨
        map_perm = MemoryPermission.ReadWrite) := fun h => hp ((isValid_iff _).2 h)
    simp only [not_or] at h5
    simp [orderedChecks, firstFailure, h1, h2, h3, h4, h5]
  have h5 := (isValid_iff _).1 hp
  have h5b : (map_perm == MemoryPermission.None || map_perm == MemoryPermission.Read ||
      map_perm == MemoryPermission.ReadWrite) = true := by
    rcases h5 with h | h | h <;> subst h <;> rfl
  have hv : Validated address size map_perm := ⟨ha, hs, hz, ho, hp⟩
  by_cases hq : system.process.resource_limit.current < system.process.resource_limit.limit
  swap
  · rw [path_limit _ _ _ _ _ hv hq]
    have h6 : system.process.resource_limit.limit ≤ system.process.resource_limit.current :=
      Nat.not_lt.1 hq
    simp [orderedChecks, firstFailure, h1, h2, h3, h4, h5b, h6]
  have h6 : ¬ system.process.resource_limit.limit ≤ system.process.resource_limit.current :=
    Nat.not_le.2 hq
  cases hc : firstFree system.slab_heap with
  | none =>
    rw [path_alloc _ _ _ _ _ hv hq hc]
    have h7 := (firstFree_none_iff_all _).1 hc
    simp only [orderedChecks, firstFailure, h7]
    simp [h1, h2, h3, h4, h5b, h6]
  | some i =>
    have h7 : system.slab_heap.all Option.isSome = false := by
      cases h : system.slab_heap.all Option.isSome with
      | false => rfl
      | true =>
        rw [(firstFree_none_iff_all _).2 h] at hc
        exact Option.noConfusion hc
    cases hr : system.process.page_table.Contains address size with
    | false =>
      rw [path_contains _ _ _ _ _ i hv hq hc hr]
      simp only [orderedChecks, firstFailure, h7, hr]
      simp [h1, h2, h3, h4, h5b, h6]
    | true =>
      cases hi : system.initialize_result.IsError with
      | true =>
        rw [path_init_failure _ _ _ _ _ i hv hq hc hr hi]
        have h9 : system.initialize_result ≠ ResultSuccess := by
          intro h
          rw [h] at hi
          exact Bool.noConfusion hi
        simp only [orderedChecks, firstFailure, h7, hr]
        simp [h1, h2, h3, h4, h5b, h6, h9]
      | false =>
        have h9 : system.initialize_result = ResultSuccess := (isError_eq_false _).1 hi
        cases hh : firstFree system.process.handle_table.entries with
        | none =>
          rw [path_add _ _ _ _ _ i hv hq hc hr hi hh]
          have h10 := (firstFree_none_iff_all _).1 hh
          simp only [orderedChecks, firstFailure, h7, hr, h10]
          simp [h1, h2, h3, h4, h5b, h6, h9]
        | some h =>
          have h10 : system.process.handle_table.entries.all Option.isSome = false := by
            cases hall : system.process.handle_table.entries.all Option.isSome with
            | false => rfl
            | true =>
              rw [(firstFree_none_iff_all _).2 hall] at hh
              exact Option.noConfusion hh
          rw [path_success _ _ _ _ _ i h hv hq hc hr hi hh]
          simp only [orderedChecks, firstFailure, h7, hr, h10]
          simp [h1, h2, h3, h4, h5b, h6, h9]

/-- C10 on the call that fails both the size check and the permission check:
the earlier one decides. -/
theorem create_first_failing_check_witness :
    0x1000 < 2 ^ 64 ∧ 0x800 < 2 ^ 64 ∧
    ((CreateTransferMemory sampleSystem 99 0x1000 0x800 MemoryPermission.Execute).result =
      firstFailure (orderedChecks sampleSystem 0x1000 0x800 MemoryPermission.Execute) ∧
    ((CreateTransferMemory sampleSystem 99 0x1000 0x800 MemoryPermission.Execute).result =
        ResultSuccess ↔
      ∀ c ∈ orderedChecks sampleSystem 0x1000 0x800 MemoryPermission.Execute,
        c.1 = false)) :=
  ⟨by decide, by decide,
   create_first_failing_check sampleSystem 99 0x1000 0x800 MemoryPermission.Execute
     (by decide) (by decide)⟩

end Svc

end Kernel
